import Mathlib

/-!
Shallow embedding of the AutoSolver dashboard backend: the in-memory record
store (`MemStorage`), its operations, and the mutating REST routes, translated
from the TypeScript source (the storage module, the route registration module
and the shared schema module).

Modelling conventions:
* Decimal amount strings (`reward`, `amount`) and the running `balance` and
  `totalEarnings` counters are modelled as exact rationals `ℚ`; `parseFloat`
  of a decimal string, and `Number.toString` round-trips, are the identity
  under this model.
* `randomUUID` identifiers are modelled by a fresh-id counter `nextId`.
* `Date` values are modelled as natural-number millisecond timestamps; each
  route takes the current time `now` as an explicit argument.
* JS truthiness on the optional string fields of a job's `data` payload is
  modelled by `truthy` (an absent field and the empty string are falsy).
* The external AI completion module is modelled as an oracle
  `ext : ExtOp → Except String String` (`.error` = the external call threw,
  carrying the thrown message); its availability (`openaiModule` non-null)
  is the boolean argument `aiAvailable`.
-/

namespace AutoSolver

/-- A user record (schema `users`); `balance`/`totalEarnings` are decimal
strings in the source, modelled as `ℚ`. -/
structure User where
  id : String
  username : String
  password : String
  balance : ℚ
  totalEarnings : ℚ
  deriving Repr, DecidableEq

/-- A platform record (schema `platforms`). -/
structure Platform where
  id : Nat
  name : String
  apiKey : Option String
  apiUrl : String
  status : String
  jobsCompleted : Nat
  successRate : String
  deriving Repr, DecidableEq

/-- The `data` jsonb payload of a job, restricted to the fields the routes
inspect (`imageUrl`, `text`, `format`). -/
structure JobData where
  imageUrl : Option String
  text : Option String
  format : Option String
  deriving Repr, DecidableEq

/-- A job record (schema `jobs`). -/
structure Job where
  id : Nat
  platformId : Option Nat
  externalId : Option String
  type : String
  subType : Option String
  status : String
  reward : ℚ
  data : Option JobData
  result : Option String
  errorMessage : Option String
  retryCount : Nat
  createdAt : Nat
  completedAt : Option Nat
  deriving Repr, DecidableEq

/-- A transaction record (schema `transactions`). -/
structure Transaction where
  id : Nat
  jobId : Option Nat
  type : String
  amount : ℚ
  status : String
  paymentMethod : Option String
  paymentAddress : Option String
  transactionHash : Option String
  createdAt : Nat
  completedAt : Option Nat
  deriving Repr, DecidableEq

/-- An activity-log record (schema `activity_logs`). -/
structure ActivityLog where
  id : Nat
  jobId : Option Nat
  action : String
  details : Option String
  status : String
  createdAt : Nat
  deriving Repr, DecidableEq

/-- The `MemStorage` state: the collections are JS `Map`s (insertion order),
modelled as lists; `balance` and `totalEarnings` are the store's private
running counters.  `nextId` models `randomUUID` freshness.  `createdCount` is
a ghost history counter (not present in the source): it counts every job ever
created (demo seeding plus each `createJob` call) and is never decremented;
it exists only to state claims about "jobs ever created".  A settings record
is modelled as its key paired with the `enabled` boolean of the only consumer
(the auto-process toggle); the settings `id` field is not modelled. -/
structure MemStorage where
  users : List User
  platforms : List Platform
  jobs : List Job
  transactions : List Transaction
  activityLogs : List ActivityLog
  settings : List (String × Bool)
  balance : ℚ
  totalEarnings : ℚ
  nextId : Nat
  createdCount : Nat
  deriving Repr

/-- The store constructed with no demo data: every collection empty and both
counters zero. -/
def emptyStore : MemStorage :=
  { users := [], platforms := [], jobs := [], transactions := [],
    activityLogs := [], settings := [], balance := 0, totalEarnings := 0,
    nextId := 0, createdCount := 0 }

/-- JS truthiness of an optional string: `undefined`/`null` and `""` are
falsy, every other string is truthy. -/
def truthy : Option String → Bool
  | none => false
  | some s => s != ""

/-- `MemStorage.getJob`: `this.jobs.get(id)`. -/
def getJob (s : MemStorage) (id : Nat) : Option Job :=
  s.jobs.find? (fun j => j.id == id)

/-- `MemStorage.getJobs`: all jobs sorted most-recent-first by `createdAt`
(the JS comparator `b.createdAt - a.createdAt`, modelled by sorting with
`b.createdAt ≤ a.createdAt`). -/
def getJobs (s : MemStorage) : List Job :=
  List.insertionSort (fun a b => b.createdAt ≤ a.createdAt) s.jobs

/-- Insert payload of `POST /api/jobs` after `insertJobSchema.parse` (the
schema omits `id`, `status`, `result`, `errorMessage`, `retryCount`,
`createdAt`, `completedAt`). -/
structure InsertJob where
  platformId : Option Nat
  externalId : Option String
  type : String
  subType : Option String
  reward : ℚ
  data : Option JobData
  deriving Repr, DecidableEq

/-- `MemStorage.createJob`: fresh id, defaults `status := "queued"`,
`result`/`errorMessage` null, `retryCount := 0`, `completedAt` null.
Also bumps the ghost `createdCount` counter. -/
def createJob (s : MemStorage) (ins : InsertJob) (now : Nat) :
    MemStorage × Job :=
  let job : Job :=
    { id := s.nextId, platformId := ins.platformId,
      externalId := ins.externalId, type := ins.type, subType := ins.subType,
      status := "queued", reward := ins.reward, data := ins.data,
      result := none, errorMessage := none, retryCount := 0,
      createdAt := now, completedAt := none }
  ({ s with jobs := s.jobs ++ [job], nextId := s.nextId + 1,
            createdCount := s.createdCount + 1 }, job)

/-- `MemStorage.updateJob` at a call site updating the fields given by `f`
(`Object.assign` merge semantics on the stored record). -/
def updateJobFields (s : MemStorage) (id : Nat) (f : Job → Job) :
    MemStorage :=
  { s with jobs := s.jobs.map (fun j => if j.id == id then f j else j) }

/-- `MemStorage.deleteJob`: `this.jobs.delete(id)`. -/
def deleteJob (s : MemStorage) (id : Nat) : MemStorage :=
  { s with jobs := s.jobs.filter (fun j => j.id != id) }

/-- Midnight of the current day (`today.setHours(0,0,0,0)` on millisecond
timestamps). -/
def dayStart (now : Nat) : Nat :=
  (now / 86400000) * 86400000

/-- `MemStorage.getJobsToday`: jobs created today whose status is
`completed`. -/
def getJobsToday (s : MemStorage) (now : Nat) : List Job :=
  s.jobs.filter (fun j => dayStart now ≤ j.createdAt && j.status == "completed")

/-- Insert payload of `createTransaction` (the schema omits `id`, `status`,
`transactionHash`, `createdAt`, `completedAt`). -/
structure InsertTransaction where
  jobId : Option Nat
  type : String
  amount : ℚ
  paymentMethod : Option String
  paymentAddress : Option String
  deriving Repr, DecidableEq

/-- `MemStorage.createTransaction`: fresh id, defaults `status := "pending"`,
`transactionHash` null, `completedAt` null; decrements the running balance by
the amount when the transaction's type is `"withdrawal"`. -/
def createTransaction (s : MemStorage) (ins : InsertTransaction) (now : Nat) :
    MemStorage × Transaction :=
  let tx : Transaction :=
    { id := s.nextId, jobId := ins.jobId, type := ins.type,
      amount := ins.amount, status := "pending",
      paymentMethod := ins.paymentMethod,
      paymentAddress := ins.paymentAddress, transactionHash := none,
      createdAt := now, completedAt := none }
  ({ s with transactions := s.transactions ++ [tx], nextId := s.nextId + 1,
            balance := if tx.type == "withdrawal" then s.balance - tx.amount
                       else s.balance }, tx)

/-- `MemStorage.updateUserBalance`: adjusts the (always absent in practice)
user record if present, then the running counters: `balance += amount`, and
`totalEarnings += amount` only when `amount > 0`. -/
def updateUserBalance (s : MemStorage) (id : String) (amount : ℚ) :
    MemStorage :=
  { s with
    users := s.users.map (fun u =>
      if u.id == id then
        { u with balance := u.balance + amount,
                 totalEarnings :=
                   u.totalEarnings + (if amount > 0 then amount else 0) }
      else u),
    balance := s.balance + amount,
    totalEarnings := s.totalEarnings + (if amount > 0 then amount else 0) }

/-- Insert payload of `createActivityLog` (the schema omits `id` and
`createdAt`). -/
structure InsertActivityLog where
  jobId : Option Nat
  action : String
  details : Option String
  status : String
  deriving Repr, DecidableEq

/-- `MemStorage.createActivityLog`: fresh id, stamps `createdAt`. -/
def createActivityLog (s : MemStorage) (ins : InsertActivityLog) (now : Nat) :
    MemStorage :=
  let log : ActivityLog :=
    { id := s.nextId, jobId := ins.jobId, action := ins.action,
      details := ins.details, status := ins.status, createdAt := now }
  { s with activityLogs := s.activityLogs ++ [log], nextId := s.nextId + 1 }

/-- `MemStorage.getPlatform`. -/
def getPlatform (s : MemStorage) (id : Nat) : Option Platform :=
  s.platforms.find? (fun p => p.id == id)

/-- Insert payload of `POST /api/platforms` (the schema omits `id`,
`jobsCompleted`, `successRate`). -/
structure InsertPlatform where
  name : String
  apiKey : Option String
  apiUrl : String
  status : String
  deriving Repr, DecidableEq

/-- `MemStorage.createPlatform`: fresh id, defaults `status := "connected"`,
`jobsCompleted := 0`, `successRate := "0"`. -/
def createPlatform (s : MemStorage) (ins : InsertPlatform) :
    MemStorage × Platform :=
  let p : Platform :=
    { id := s.nextId, name := ins.name, apiKey := ins.apiKey,
      apiUrl := ins.apiUrl, status := "connected", jobsCompleted := 0,
      successRate := "0" }
  ({ s with platforms := s.platforms ++ [p], nextId := s.nextId + 1 }, p)

/-- `MemStorage.deletePlatform`. -/
def deletePlatform (s : MemStorage) (id : Nat) : MemStorage :=
  { s with platforms := s.platforms.filter (fun p => p.id != id) }

/-- `MemStorage.setSetting`: update the value under the key if present,
otherwise append a fresh record. -/
def setSetting (s : MemStorage) (key : String) (v : Bool) : MemStorage :=
  if s.settings.any (fun kv => kv.1 == key) then
    { s with settings := s.settings.map (fun kv =>
        if kv.1 == key then (kv.1, v) else kv) }
  else
    { s with settings := s.settings ++ [(key, v)] }

/-- The `DashboardStats` response shape. -/
structure DashboardStats where
  totalEarnings : ℚ
  balance : ℚ
  jobsCompletedToday : Nat
  successRate : ℚ
  pendingWithdrawals : ℚ
  deriving Repr, DecidableEq

/-- `MemStorage.getDashboardStats`: recomputed on each call from the current
store contents and the two running counters. -/
def getDashboardStats (s : MemStorage) (now : Nat) : DashboardStats :=
  let jobsToday := getJobsToday s now
  let allJobs := getJobs s
  let completedJobs := (allJobs.filter (fun j => j.status == "completed")).length
  let totalJobs := allJobs.length
  let successRate : ℚ :=
    if totalJobs > 0 then ((completedJobs : ℚ) / (totalJobs : ℚ)) * 100 else 0
  let pendingWithdrawals : ℚ :=
    ((s.transactions.filter (fun tx =>
        tx.type == "withdrawal" && tx.status == "pending")).map
      (fun tx => tx.amount)).foldl (· + ·) 0
  { totalEarnings := s.totalEarnings, balance := s.balance,
    jobsCompletedToday := jobsToday.length, successRate := successRate,
    pendingWithdrawals := pendingWithdrawals }

/-- The four external AI completion operations of the optional OpenAI
module. -/
inductive ExtOp
  | solveCaptchaImage
  | solveCaptchaText
  | transcribeImage
  | processDataEntry
  deriving Repr, DecidableEq

/-- The routing if-chain of `POST /api/jobs/:id/process`: which external
operation a job's `type` and `data` select, or the message of the error
thrown before any external call (`"No CAPTCHA data provided"`,
`"No typing data provided"`, `"Unknown job type"`). -/
def selectExtOp (ty : String) (data : Option JobData) :
    Except String ExtOp :=
  if ty == "captcha" then
    if truthy (data.bind (fun d => d.imageUrl)) then .ok .solveCaptchaImage
    else if truthy (data.bind (fun d => d.text)) then .ok .solveCaptchaText
    else .error "No CAPTCHA data provided"
  else if ty == "typing" then
    if truthy (data.bind (fun d => d.imageUrl)) then .ok .transcribeImage
    else if truthy (data.bind (fun d => d.text)) &&
            truthy (data.bind (fun d => d.format)) then .ok .processDataEntry
    else .error "No typing data provided"
  else .error "Unknown job type"

/-- Result of one route invocation: the store afterwards, the HTTP status
sent, and whether the external AI module was actually invoked. -/
structure RouteResult where
  state : MemStorage
  http : Nat
  externalCalled : Bool
  deriving Repr

/-- `POST /api/jobs`: create the job (schema-validated payload) and append
an info activity log. -/
def postJobRoute (s : MemStorage) (ins : InsertJob) (now : Nat) :
    RouteResult :=
  let (s1, job) := createJob s ins now
  let s2 := createActivityLog s1
    { jobId := some job.id, action := "New job created",
      details := some (job.type ++ " job queued"), status := "info" } now
  { state := s2, http := 201, externalCalled := false }

/-- `DELETE /api/jobs/:id`: 404 when the job is missing, otherwise delete it
and append an info activity log. -/
def deleteJobRoute (s : MemStorage) (id : Nat) (now : Nat) : RouteResult :=
  match getJob s id with
  | none => { state := s, http := 404, externalCalled := false }
  | some _ =>
    let s1 := deleteJob s id
    let s2 := createActivityLog s1
      { jobId := none, action := "Job cancelled",
        details := some ("Job " ++ toString id ++ "... cancelled"),
        status := "info" } now
    { state := s2, http := 200, externalCalled := false }

/-- `POST /api/jobs/:id/process`: 404 when the job is missing, 503 when the
AI module is unavailable; otherwise mark the job `processing`, route to the
external operation selected by `selectExtOp`, and on success record the
result, the earning transaction, the balance update and a success log, while
on any thrown error (routing or external) mark the job `failed` with the
message and an error log. -/
def processJobRoute (s : MemStorage) (id : Nat) (aiAvailable : Bool)
    (ext : ExtOp → Except String String) (now : Nat) : RouteResult :=
  match getJob s id with
  | none => { state := s, http := 404, externalCalled := false }
  | some job =>
    if aiAvailable then
      let s1 := updateJobFields s id (fun j => { j with status := "processing" })
      let outcome : Except String String × Bool :=
        match selectExtOp job.type job.data with
        | .error msg => (.error msg, false)
        | .ok op => (ext op, true)
      match outcome with
      | (.ok result, called) =>
        let s2 := updateJobFields s1 id (fun j =>
          { j with status := "completed", result := some result,
                   completedAt := some now })
        let (s3, _) := createTransaction s2
          { jobId := some job.id, type := "earning", amount := job.reward,
            paymentMethod := none, paymentAddress := none } now
        let s4 := updateUserBalance s3 "default" job.reward
        let s5 := createActivityLog s4
          { jobId := some job.id,
            action := if job.type == "captcha" then "CAPTCHA solved"
                      else "Typing job completed",
            details := some ("Earned $" ++ toString job.reward),
            status := "success" } now
        { state := s5, http := 200, externalCalled := called }
      | (.error msg, called) =>
        let s2 := updateJobFields s1 id (fun j =>
          { j with status := "failed", errorMessage := some msg,
                   retryCount := job.retryCount + 1 })
        let s3 := createActivityLog s2
          { jobId := some job.id, action := "Job failed",
            details := some msg, status := "error" } now
        { state := s3, http := 500, externalCalled := called }
    else { state := s, http := 503, externalCalled := false }

/-- A withdrawal request body before validation. -/
structure WithdrawalRequest where
  amount : ℚ
  paymentMethod : String
  paymentAddress : String
  deriving Repr, DecidableEq

/-- `withdrawalRequestSchema.parse`: amount positive, method one of the four
supported methods, address non-empty. -/
def parseWithdrawal (req : WithdrawalRequest) : Bool :=
  req.amount > 0 &&
  (req.paymentMethod == "paypal" || req.paymentMethod == "bitcoin" ||
   req.paymentMethod == "ethereum" || req.paymentMethod == "usdt") &&
  req.paymentAddress.length ≥ 1

/-- `POST /api/withdrawals`: 400 on schema failure; 400 (insufficient
balance) when the amount exceeds the dashboard balance; otherwise create the
(pending) withdrawal transaction and an info activity log. -/
def postWithdrawalRoute (s : MemStorage) (req : WithdrawalRequest)
    (now : Nat) : RouteResult :=
  if parseWithdrawal req then
    if req.amount > (getDashboardStats s now).balance then
      { state := s, http := 400, externalCalled := false }
    else
      let (s1, _) := createTransaction s
        { jobId := none, type := "withdrawal", amount := req.amount,
          paymentMethod := some req.paymentMethod,
          paymentAddress := some req.paymentAddress } now
      let s2 := createActivityLog s1
        { jobId := none, action := "Withdrawal requested",
          details := some ("$" ++ toString req.amount ++ " via " ++
                           req.paymentMethod),
          status := "info" } now
      { state := s2, http := 201, externalCalled := false }
  else { state := s, http := 400, externalCalled := false }

/-- `POST /api/platforms`: create the platform and append a success log. -/
def postPlatformRoute (s : MemStorage) (ins : InsertPlatform) (now : Nat) :
    RouteResult :=
  let (s1, p) := createPlatform s ins
  let s2 := createActivityLog s1
    { jobId := none, action := "Platform connected",
      details := some (p.name ++ " added successfully"),
      status := "success" } now
  { state := s2, http := 201, externalCalled := false }

/-- `DELETE /api/platforms/:id`: 404 when missing, otherwise delete and
append an info log. -/
def deletePlatformRoute (s : MemStorage) (id : Nat) (now : Nat) :
    RouteResult :=
  match getPlatform s id with
  | none => { state := s, http := 404, externalCalled := false }
  | some p =>
    let s1 := deletePlatform s id
    let s2 := createActivityLog s1
      { jobId := none, action := "Platform disconnected",
        details := some (p.name ++ " removed"), status := "info" } now
    { state := s2, http := 200, externalCalled := false }

/-- `POST /api/settings/auto-process`: store the toggle and append an info
log. -/
def postAutoProcessRoute (s : MemStorage) (enabled : Bool) (now : Nat) :
    RouteResult :=
  let s1 := setSetting s "auto-process" enabled
  let s2 := createActivityLog s1
    { jobId := none,
      action := if enabled then "Auto-processing enabled"
                else "Auto-processing disabled",
      details := none, status := "info" } now
  { state := s2, http := 200, externalCalled := false }

/-- One store-mutating request of the public API.  The read-only routes
(`GET` endpoints) do not change the store and are omitted.  `paypal` covers
the conditional payment-provider routes; modelled from the spec: they are
opaque order-create/capture calls against the payment provider SDK (the
provider module is not part of the store sources) and do not access the
record store, so their store effect is the identity. -/
inductive Step : MemStorage → MemStorage → Prop
  | postJob (s : MemStorage) (ins : InsertJob) (now : Nat) :
      Step s (postJobRoute s ins now).state
  | deleteJob (s : MemStorage) (id : Nat) (now : Nat) :
      Step s (deleteJobRoute s id now).state
  | processJob (s : MemStorage) (id : Nat) (ai : Bool)
      (ext : ExtOp → Except String String) (now : Nat) :
      Step s (processJobRoute s id ai ext now).state
  | postWithdrawal (s : MemStorage) (req : WithdrawalRequest) (now : Nat) :
      Step s (postWithdrawalRoute s req now).state
  | postPlatform (s : MemStorage) (ins : InsertPlatform) (now : Nat) :
      Step s (postPlatformRoute s ins now).state
  | deletePlatform (s : MemStorage) (id : Nat) (now : Nat) :
      Step s (deletePlatformRoute s id now).state
  | postAutoProcess (s : MemStorage) (enabled : Bool) (now : Nat) :
      Step s (postAutoProcessRoute s enabled now).state
  | paypal (s : MemStorage) : Step s s

/-- States reachable from `init` through the public operations. -/
inductive ReachableFrom (init : MemStorage) : MemStorage → Prop
  | refl : ReachableFrom init init
  | step {s s' : MemStorage} : ReachableFrom init s → Step s s' →
      ReachableFrom init s'

/-- `Step` restricted so that `POST /api/jobs/:id/process` is never invoked
on a job id whose stored job is already `completed` (the guard the source
lacks). -/
inductive GuardedStep : MemStorage → MemStorage → Prop
  | postJob (s : MemStorage) (ins : InsertJob) (now : Nat) :
      GuardedStep s (postJobRoute s ins now).state
  | deleteJob (s : MemStorage) (id : Nat) (now : Nat) :
      GuardedStep s (deleteJobRoute s id now).state
  | processJob (s : MemStorage) (id : Nat) (ai : Bool)
      (ext : ExtOp → Except String String) (now : Nat)
      (hguard : ∀ j ∈ s.jobs, j.id = id → j.status ≠ "completed") :
      GuardedStep s (processJobRoute s id ai ext now).state
  | postWithdrawal (s : MemStorage) (req : WithdrawalRequest) (now : Nat) :
      GuardedStep s (postWithdrawalRoute s req now).state
  | postPlatform (s : MemStorage) (ins : InsertPlatform) (now : Nat) :
      GuardedStep s (postPlatformRoute s ins now).state
  | deletePlatform (s : MemStorage) (id : Nat) (now : Nat) :
      GuardedStep s (deletePlatformRoute s id now).state
  | postAutoProcess (s : MemStorage) (enabled : Bool) (now : Nat) :
      GuardedStep s (postAutoProcessRoute s enabled now).state
  | paypal (s : MemStorage) : GuardedStep s s

/-- States reachable from `init` using only guarded steps. -/
inductive GuardedReachableFrom (init : MemStorage) : MemStorage → Prop
  | refl : GuardedReachableFrom init init
  | step {s s' : MemStorage} : GuardedReachableFrom init s →
      GuardedStep s s' → GuardedReachableFrom init s'

/-! ### The seeded demo data (`MemStorage.initDemoData`)

The constructor seeds the store with demo records whose money amounts come
from `Math.random()`-derived values rounded with `toFixed`; the model takes
each drawn amount as a function argument (`jobR i` is job `i`'s reward,
drawn from `(Math.random() * 0.05 + 0.01).toFixed(4)`, hence in
`[0.01, 0.06]`; `txR i` is transaction `i`'s amount, drawn from
`(Math.random() * 0.05 + 0.01).toFixed(4)` in `[0.01, 0.06]` for earning
rows and `(Math.random() * 10 + 5).toFixed(2)` in `[5, 15]` for withdrawal
rows). -/

/-- The demo platform record. -/
def demoPlatform : Platform :=
  { id := 0, name := "2Captcha", apiKey := some "demo-key-hidden",
    apiUrl := "https://api.2captcha.com", status := "connected",
    jobsCompleted := 1245, successRate := "94.5" }

/-- The demo status cycle. -/
def demoStatuses : List String := ["queued", "processing", "completed", "failed"]

/-- Demo job `i` (ids `1..8` follow the platform's id `0`). -/
def demoJob (now : Nat) (r : ℚ) (i : Nat) : Job :=
  let ty := if i % 2 == 0 then "captcha" else "typing"
  let sub := if ty == "captcha" then
               ["image_captcha", "text_captcha"].getD (i % 2) ""
             else ["data_entry", "transcription"].getD (i % 2) ""
  let st := demoStatuses.getD (i % 4) ""
  { id := 1 + i, platformId := some demoPlatform.id,
    externalId := some ("ext-" ++ toString i), type := ty,
    subType := some sub, status := st, reward := r,
    data := if ty == "captcha" then
              some { imageUrl := some "https://via.placeholder.com/200x80?text=CAPTCHA",
                     text := none, format := none }
            else
              some { imageUrl := none, text := some "Sample text for typing job",
                     format := none },
    result := if st == "completed" then some "xyz123" else none,
    errorMessage := if st == "failed" then some "Timeout exceeded" else none,
    retryCount := if st == "failed" then 2 else 0,
    createdAt := now - i * 60000,
    completedAt := if st == "completed" then some now else none }

/-- Ids of the eight demo jobs, in insertion order
(`Array.from(this.jobs.keys())`). -/
def demoJobIds : List Nat := (List.range 8).map (fun i => 1 + i)

/-- Demo transaction `i` (ids `9..23`): every fourth row is a withdrawal,
the rest are earnings; the first twelve rows are `completed`, the rest
`pending`. -/
def demoTx (now : Nat) (a : ℚ) (i : Nat) : Transaction :=
  let isEarning := i % 4 != 0
  { id := 9 + i,
    jobId := if isEarning then some (demoJobIds.getD (i % demoJobIds.length) 0)
             else none,
    type := if isEarning then "earning" else "withdrawal",
    amount := a,
    status := if i < 12 then "completed" else "pending",
    paymentMethod := if isEarning then none
                     else some (["paypal", "bitcoin", "ethereum"].getD (i % 3) ""),
    paymentAddress := if isEarning then none else some "user@example.com",
    transactionHash := none,
    createdAt := now - i * 3600000,
    completedAt := if i < 12 then some (now - i * 3600000 + 60000) else none }

/-- The demo activity actions. -/
def demoActions : List (String × String) :=
  [("CAPTCHA solved successfully", "success"),
   ("Typing job completed", "success"),
   ("Job failed - timeout", "error"),
   ("New job received", "info"),
   ("Platform connected", "info")]

/-- Demo activity log `i` (ids `24..43`). -/
def demoLog (now : Nat) (i : Nat) : ActivityLog :=
  let act := demoActions.getD (i % demoActions.length) ("", "")
  { id := 24 + i,
    jobId := some (demoJobIds.getD (i % demoJobIds.length) 0),
    action := act.1,
    details := some ("Job ID: " ++
      toString (demoJobIds.getD (i % demoJobIds.length) 0) ++ "..."),
    status := act.2, createdAt := now - i * 30000 }

/-- The store as built by the constructor: demo balance `25.4523`, demo
total earnings `156.8912`, one platform, eight jobs, fifteen transactions
and twenty activity logs. -/
def demoStore (now : Nat) (jobR txR : Nat → ℚ) : MemStorage :=
  { users := [], platforms := [demoPlatform],
    jobs := (List.range 8).map (fun i => demoJob now (jobR i) i),
    transactions := (List.range 15).map (fun i => demoTx now (txR i) i),
    activityLogs := (List.range 20).map (fun i => demoLog now i),
    settings := [],
    balance := 254523 / 10000, totalEarnings := 1568912 / 10000,
    nextId := 44, createdCount := 8 }

/-! ### Spec-side definitions

These follow the spec's wording (not the source) and are compared with the
source-translated definitions above. -/

/-- Spec: sum of the amounts of all `earning` transactions in the store. -/
def specEarningSum (s : MemStorage) : ℚ :=
  ((s.transactions.filter (fun t => t.type == "earning")).map
    (fun t => t.amount)).sum

/-- Spec: sum of the amounts of all `withdrawal` transactions in the store
(regardless of status). -/
def specWithdrawalSum (s : MemStorage) : ℚ :=
  ((s.transactions.filter (fun t => t.type == "withdrawal")).map
    (fun t => t.amount)).sum

/-- The balance bookkeeping invariant of the spec: the running balance
equals earnings minus withdrawals. -/
def balanceOk (s : MemStorage) : Prop :=
  s.balance = specEarningSum s - specWithdrawalSum s

/-- Spec: number of jobs in the store whose status is `completed`. -/
def completedJobCount (s : MemStorage) : Nat :=
  (s.jobs.filter (fun j => j.status == "completed")).length

/-- Spec: number of jobs in the store. -/
def totalJobCount (s : MemStorage) : Nat := s.jobs.length

/-- Spec formula for the success rate over the jobs currently in the store:
`completedJobCount / totalJobCount × 100`, and `0` when there are no
jobs. -/
def specSuccessRate (s : MemStorage) : ℚ :=
  if totalJobCount s > 0 then
    ((completedJobCount s : ℚ) / (totalJobCount s : ℚ)) * 100
  else 0

/-- The claimed success-rate formula over all jobs **ever created** (the
ghost `createdCount`), `0` when no job was ever created. -/
def specSuccessRateEver (s : MemStorage) : ℚ :=
  if s.createdCount > 0 then
    ((completedJobCount s : ℚ) / (s.createdCount : ℚ)) * 100
  else 0

/-- Spec: sum of the amounts of transactions with type `withdrawal` and
status `pending`. -/
def specPendingWithdrawals (s : MemStorage) : ℚ :=
  ((s.transactions.filter (fun t =>
      t.type == "withdrawal" && t.status == "pending")).map
    (fun t => t.amount)).sum

/-- The claimed job invariant: `completedAt` is set iff status is
`completed`, for every job in the store. -/
def jobInvariant (s : MemStorage) : Bool :=
  s.jobs.all (fun j => j.completedAt.isSome == (j.status == "completed"))

/-- The four valid type/data combinations of the claim: captcha with image
payload, captcha with text payload, typing with image payload, typing with
text plus format. -/
def validCombo (ty : String) (d : Option JobData) : Bool :=
  (ty == "captcha" && truthy (d.bind (fun x => x.imageUrl))) ||
  (ty == "captcha" && truthy (d.bind (fun x => x.text))) ||
  (ty == "typing" && truthy (d.bind (fun x => x.imageUrl))) ||
  (ty == "typing" && truthy (d.bind (fun x => x.text)) &&
     truthy (d.bind (fun x => x.format)))

/-! ### Concrete runs used by counterexamples and witnesses -/

/-- A schema-valid captcha job insert with an image payload. -/
def insCaptcha (r : ℚ) : InsertJob :=
  { platformId := none, externalId := none, type := "captcha",
    subType := none, reward := r,
    data := some { imageUrl := some "https://example.com/c.png",
                   text := none, format := none } }

/-- A typing job insert with text but no format (an invalid combination). -/
def insTypingBad : InsertJob :=
  { platformId := none, externalId := none, type := "typing",
    subType := none, reward := 1 / 100,
    data := some { imageUrl := none, text := some "t", format := none } }

/-- An external oracle whose calls all succeed with `"ok"`. -/
def oracleOk : ExtOp → Except String String := fun _ => .ok "ok"

/-- An external oracle whose calls all throw. -/
def oracleFail : ExtOp → Except String String :=
  fun _ => .error "CAPTCHA solving failed"

/-- Two jobs created on an empty store... -/
def c2s1 : MemStorage := (postJobRoute emptyStore (insCaptcha (1 / 100)) 100).state

/-- ...(job ids 0 and 2)... -/
def c2s2 : MemStorage := (postJobRoute c2s1 (insCaptcha (1 / 100)) 101).state

/-- ...job 0 processed successfully... -/
def c2s3 : MemStorage := (processJobRoute c2s2 0 true oracleOk 102).state

/-- ...and the still-queued job 2 deleted: one completed job remains of the
two ever created. -/
def c2s4 : MemStorage := (deleteJobRoute c2s3 2 103).state

/-- A job created on an empty store... -/
def c3s1 : MemStorage := (postJobRoute emptyStore (insCaptcha (1 / 100)) 0).state

/-- ...processed successfully at time 5 (status `completed`,
`completedAt = 5`)... -/
def c3s2 : MemStorage := (processJobRoute c3s1 0 true oracleOk 5).state

/-- ...then processed again at time 6 with the external call throwing: the
job becomes `failed` while keeping its old `completedAt`. -/
def c3s3 : MemStorage := (processJobRoute c3s2 0 true oracleFail 6).state

/-- A job created with the (schema-accepted) negative reward `-1`. -/
def c4s1 : MemStorage := (postJobRoute emptyStore (insCaptcha (-1)) 0).state

/-- The invalid-combination job created on an empty store. -/
def c6s1 : MemStorage := (postJobRoute emptyStore insTypingBad 0).state

/-- The earning transaction held by `c3s2`. -/
def c3tx : Transaction :=
  { id := 2, jobId := some 0, type := "earning", amount := 1 / 100,
    status := "pending", paymentMethod := none, paymentAddress := none,
    transactionHash := none, createdAt := 5, completedAt := none }

/-- A withdrawal request for more than `c3s2`'s balance of `0.01`. -/
def reqBig : WithdrawalRequest :=
  { amount := 5, paymentMethod := "paypal", paymentAddress := "user@example.com" }

/-- A withdrawal request for exactly `c3s2`'s balance of `0.01`. -/
def reqExact : WithdrawalRequest :=
  { amount := 1 / 100, paymentMethod := "paypal",
    paymentAddress := "user@example.com" }

/-- A concrete choice for the demo jobs' random reward draws. -/
def demoJobDraw : Nat → ℚ := fun _ => 1 / 100

/-- A concrete choice for the demo transactions' random amount draws. -/
def demoTxDraw : Nat → ℚ := fun i => if i % 4 != 0 then 1 / 100 else 5

/-- A concrete boot time for the demo store. -/
def demoNow : Nat := 1000000000

/-- The demo store at the concrete boot time and draws. -/
def demoState0 : MemStorage := demoStore demoNow demoJobDraw demoTxDraw

/-- A sample earning transaction insert used by witnesses. -/
def insEarnTx : InsertTransaction :=
  { jobId := none, type := "earning", amount := 1,
    paymentMethod := none, paymentAddress := none }

/-- A sample withdrawal transaction insert used by witnesses. -/
def insWithdrawTx : InsertTransaction :=
  { jobId := none, type := "withdrawal", amount := 5,
    paymentMethod := some "paypal", paymentAddress := some "user@example.com" }

/-! ### Helper lemmas -/

/-- Folding `+` over rationals from an accumulator is the accumulator plus
the sum (the JS `reduce((sum, tx) => sum + ..., 0)` pattern). -/
theorem foldl_add_eq_sum (l : List ℚ) (a : ℚ) :
    l.foldl (· + ·) a = a + l.sum := by
  induction l generalizing a with
  | nil => simp
  | cons x xs ih => simp [ih, add_assoc]

/-- Looking up an id after an id-preserving per-id update of the jobs list
finds the updated record. -/
theorem find_update_jobs (l : List Job) (id : Nat) (f : Job → Job)
    (hf : ∀ j, (f j).id = j.id) :
    (l.map (fun j => if j.id == id then f j else j)).find?
        (fun j => j.id == id) =
      (l.find? (fun j => j.id == id)).map f := by
  induction l with
  | nil => rfl
  | cons j l ih =>
    by_cases h : (j.id == id) = true
    · have h2 : ((f j).id == id) = true := by rw [hf]; exact h
      rw [List.map_cons, if_pos h,
        @List.find?_cons_of_pos Job (fun j => j.id == id) (f j) _ h2,
        @List.find?_cons_of_pos Job (fun j => j.id == id) j _ h,
        Option.map_some']
    · rw [List.map_cons, if_neg h,
        @List.find?_cons_of_neg Job (fun j => j.id == id) j _ h,
        @List.find?_cons_of_neg Job (fun j => j.id == id) j _ h, ih]

/-- A step of the public API never removes or rewrites a transaction: every
transaction present before a step is present, unchanged, afterwards. -/
theorem step_transactions_mono {s s' : MemStorage} (hs : Step s s') :
    ∀ t ∈ s.transactions, t ∈ s'.transactions := by
  intro t ht
  cases hs with
  | postJob ins now => exact ht
  | deleteJob id now =>
    unfold deleteJobRoute
    split
    · exact ht
    · exact ht
  | processJob id ai ext now =>
    unfold processJobRoute
    cases hj : getJob s id with
    | none => exact ht
    | some job =>
      cases ai with
      | false => exact ht
      | true =>
        cases hsel : selectExtOp job.type job.data with
        | error msg =>
          simp only [hsel]
          exact ht
        | ok op =>
          cases hext : ext op with
          | error msg =>
            simp only [hsel, hext]
            exact ht
          | ok txt =>
            simp only [hsel, hext]
            exact List.mem_append_left _ ht
  | postWithdrawal req now =>
    unfold postWithdrawalRoute
    split
    · split
      · exact ht
      · exact List.mem_append_left _ ht
    · exact ht
  | postPlatform ins now => exact ht
  | deletePlatform id now =>
    unfold deletePlatformRoute
    split
    · exact ht
    · exact ht
  | postAutoProcess enabled now =>
    unfold postAutoProcessRoute setSetting
    split
    · exact ht
    · exact ht
  | paypal => exact ht

/-- Every route preserves the balance bookkeeping invariant: an accepted
withdrawal both decrements the balance and appends a withdrawal transaction,
a successful processing both increments the balance and appends an earning
transaction, and no other route touches either side. -/
theorem step_balanceOk {s s' : MemStorage} (h : balanceOk s) (hs : Step s s') :
    balanceOk s' := by
  cases hs with
  | postJob ins now => exact h
  | deleteJob id now =>
    unfold deleteJobRoute
    split
    · exact h
    · exact h
  | processJob id ai ext now =>
    unfold processJobRoute
    cases hj : getJob s id with
    | none => exact h
    | some job =>
      cases ai with
      | false => exact h
      | true =>
        cases hsel : selectExtOp job.type job.data with
        | error msg =>
          simp only [hsel]
          exact h
        | ok op =>
          cases hext : ext op with
          | error msg =>
            simp only [hsel, hext]
            exact h
          | ok txt =>
            simp only [hsel, hext]
            unfold balanceOk specEarningSum specWithdrawalSum at h ⊢
            simp only [createActivityLog, updateUserBalance, createTransaction,
              updateJobFields, List.filter_append, List.map_append,
              List.sum_append, List.filter_cons, List.filter_nil]
            simp only [show (("earning" == "withdrawal") = false) by decide,
              show (("earning" == "earning") = true) by decide]
            simp
            rw [h]
            ring
  | postWithdrawal req now =>
    unfold postWithdrawalRoute
    split
    · split
      · exact h
      · unfold balanceOk specEarningSum specWithdrawalSum at h ⊢
        simp only [createActivityLog, createTransaction, List.filter_append,
          List.map_append, List.sum_append, List.filter_cons, List.filter_nil]
        simp only [show (("withdrawal" == "withdrawal") = true) by decide,
          show (("withdrawal" == "earning") = false) by decide]
        simp
        rw [h]
        ring
    · exact h
  | postPlatform ins now => exact h
  | deletePlatform id now =>
    unfold deletePlatformRoute
    split
    · exact h
    · exact h
  | postAutoProcess enabled now =>
    unfold postAutoProcessRoute setSetting
    split
    · exact h
    · exact h
  | paypal => exact h

/-- Every guarded route preserves the `completedAt` iff `completed`
invariant: creation starts `queued` with a null `completedAt`, success sets
both, and a failure leaves `completedAt` null because the guard keeps
already-completed jobs away from reprocessing. -/
theorem gstep_jobInvariant {s s' : MemStorage} (h : jobInvariant s = true)
    (hs : GuardedStep s s') : jobInvariant s' = true := by
  rw [jobInvariant, List.all_eq_true] at h
  rw [jobInvariant, List.all_eq_true]
  cases hs with
  | postJob ins now =>
    intro x hx
    simp only [postJobRoute, createActivityLog, createJob] at hx
    rcases List.mem_append.1 hx with hx | hx
    · exact h x hx
    · simp only [List.mem_singleton] at hx
      subst hx
      rfl
  | deleteJob id now =>
    unfold deleteJobRoute
    split
    · exact h
    · intro x hx
      simp only [createActivityLog, deleteJob] at hx
      exact h x (List.mem_filter.1 hx).1
  | processJob id ai ext now hguard =>
    unfold processJobRoute
    cases hj : getJob s id with
    | none => exact h
    | some job =>
      cases ai with
      | false => exact h
      | true =>
        cases hsel : selectExtOp job.type job.data with
        | error msg =>
          simp only [hsel]
          intro x hx
          simp [createActivityLog, updateJobFields, List.map_map,
            Function.comp] at hx
          obtain ⟨j, hjmem, rfl⟩ := hx
          have hup := h j hjmem
          simp only [beq_iff_eq] at hup
          by_cases hidq : j.id = id
          · have h2 : j.status ≠ "completed" := hguard j hjmem hidq
            have h3 : (j.status == "completed") = false := by simpa using h2
            simp [hidq, hup, h3]
          · simp [hidq, hup]
        | ok op =>
          cases hext : ext op with
          | error msg =>
            simp only [hsel, hext]
            intro x hx
            simp [createActivityLog, updateJobFields, List.map_map,
              Function.comp] at hx
            obtain ⟨j, hjmem, rfl⟩ := hx
            have hup := h j hjmem
            simp only [beq_iff_eq] at hup
            by_cases hidq : j.id = id
            · have h2 : j.status ≠ "completed" := hguard j hjmem hidq
              have h3 : (j.status == "completed") = false := by simpa using h2
              simp [hidq, hup, h3]
            · simp [hidq, hup]
          | ok txt =>
            simp only [hsel, hext]
            intro x hx
            simp [createActivityLog, createTransaction, updateUserBalance,
              updateJobFields, List.map_map, Function.comp] at hx
            obtain ⟨j, hjmem, rfl⟩ := hx
            have hup := h j hjmem
            simp only [beq_iff_eq] at hup
            by_cases hidq : j.id = id
            · simp [hidq]
            · simp [hidq, hup]
  | postWithdrawal req now =>
    unfold postWithdrawalRoute
    split
    · split
      · exact h
      · exact h
    · exact h
  | postPlatform ins now => exact h
  | deletePlatform id now =>
    unfold deletePlatformRoute
    split
    · exact h
    · exact h
  | postAutoProcess enabled now =>
    unfold postAutoProcessRoute setSetting
    split
    · exact h
    · exact h
  | paypal => exact h

/-- The success rate computed by `getDashboardStats` (over the sorted copy
of the jobs list) equals the spec formula over the stored jobs: sorting is a
permutation, and permutations preserve lengths and filtered lengths. -/
theorem stats_successRate_eq (s : MemStorage) (now : Nat) :
    (getDashboardStats s now).successRate = specSuccessRate s := by
  have hperm :=
    List.perm_insertionSort (fun a b : Job => b.createdAt ≤ a.createdAt) s.jobs
  have hlen := hperm.length_eq
  have hfil :=
    (hperm.filter (fun j => j.status == "completed")).length_eq
  simp only [getDashboardStats, specSuccessRate, getJobs, totalJobCount,
    completedJobCount] at *
  rw [hlen, hfil]

/-- The pending-withdrawals figure computed by `getDashboardStats` (a
`reduce` fold) equals the spec sum. -/
theorem stats_pendingWithdrawals_eq (s : MemStorage) (now : Nat) :
    (getDashboardStats s now).pendingWithdrawals = specPendingWithdrawals s := by
  simp only [getDashboardStats, specPendingWithdrawals]
  rw [foldl_add_eq_sum]
  simp

/-- Any type/data combination outside the four valid ones makes the routing
if-chain throw one of its three non-empty messages. -/
theorem selectExtOp_error_of_invalid (ty : String) (d : Option JobData)
    (h : validCombo ty d = false) :
    ∃ msg, selectExtOp ty d = Except.error msg ∧ msg ≠ "" := by
  unfold validCombo at h
  unfold selectExtOp
  by_cases h1 : (ty == "captcha") = true
  · by_cases h2 : truthy (d.bind (fun x => x.imageUrl)) = true
    · simp [h1, h2] at h
    · by_cases h3 : truthy (d.bind (fun x => x.text)) = true
      · simp [h1, h2, h3] at h
      · refine ⟨"No CAPTCHA data provided", ?_, by decide⟩
        simp [h1, h2, h3]
  · by_cases h4 : (ty == "typing") = true
    · by_cases h2 : truthy (d.bind (fun x => x.imageUrl)) = true
      · simp [h1, h2, h4] at h
      · by_cases h3 : truthy (d.bind (fun x => x.text)) = true
        · by_cases h5 : truthy (d.bind (fun x => x.format)) = true
          · simp [h1, h2, h3, h4, h5] at h
          · refine ⟨"No typing data provided", ?_, by decide⟩
            simp [h1, h2, h3, h4, h5]
        · refine ⟨"No typing data provided", ?_, by decide⟩
          simp [h1, h2, h3, h4]
    · refine ⟨"Unknown job type", ?_, by decide⟩
      simp [h1, h4]

/-- Looking up the updated id after `updateJob` yields the updated record
(when the update does not change the id). -/
theorem getJob_updateJobFields (s : MemStorage) (id : Nat) (f : Job → Job)
    (hf : ∀ j, (f j).id = j.id) :
    getJob (updateJobFields s id f) id = (getJob s id).map f := by
  unfold getJob updateJobFields
  exact find_update_jobs s.jobs id f hf

/-! ### Claim C1 -/

/-- C1 counterexample: the seeded demo store — the very first reachable
state of the shipped program — has dashboard balance `25.4523` while its
earning-minus-withdrawal transaction sum is `0.11 - 20` (here at the
concrete random draws `demoTxDraw`; any draws within the source's ranges
leave the sum below zero, so the demo balance never matches). -/
theorem demo_balance_counterexample :
    ReachableFrom demoState0 demoState0 ∧
    ¬ (getDashboardStats demoState0 demoNow).balance =
        specEarningSum demoState0 - specWithdrawalSum demoState0 := by
  refine ⟨ReachableFrom.refl, ?_⟩
  have h1 : specEarningSum demoState0 = 11 / 100 := by
    norm_num +decide [specEarningSum, demoState0, demoStore, demoTx,
      demoTxDraw, demoJobIds, List.range_succ, List.filter_cons]
  have h2 : specWithdrawalSum demoState0 = 20 := by
    norm_num +decide [specWithdrawalSum, demoState0, demoStore, demoTx,
      demoTxDraw, demoJobIds, List.range_succ, List.filter_cons]
  rw [show (getDashboardStats demoState0 demoNow).balance =
    254523 / 10000 from rfl, h1, h2]
  norm_num

/-- C1 (amended): from any store state satisfying the balance bookkeeping
invariant — for instance a store with no transactions and zero balance, but
not the seeded demo store — every state reachable through the public
operations has dashboard balance equal to the sum of all earning transaction
amounts minus the sum of all withdrawal transaction amounts, regardless of
each withdrawal's status. -/
theorem balance_eq_earning_sub_withdrawal_sums (init s : MemStorage)
    (now : Nat) (hinit : balanceOk init) (hre : ReachableFrom init s) :
    (getDashboardStats s now).balance =
      specEarningSum s - specWithdrawalSum s := by
  have hok : balanceOk s := by
    induction hre with
    | refl => exact hinit
    | step hr hstep ih => exact step_balanceOk ih hstep
  exact hok

/-- Witness for C1's amended theorem, at the empty store. -/
theorem balance_eq_earning_sub_withdrawal_sums_witness :
    balanceOk emptyStore ∧
    (getDashboardStats emptyStore 0).balance =
      specEarningSum emptyStore - specWithdrawalSum emptyStore := by
  have h0 : balanceOk emptyStore := by
    simp [balanceOk, specEarningSum, specWithdrawalSum, emptyStore]
  exact ⟨h0, balance_eq_earning_sub_withdrawal_sums emptyStore emptyStore 0
    h0 ReachableFrom.refl⟩

/-! ### Claim C2 -/

/-- C2 counterexample: create two jobs, complete the first, delete the
still-queued second.  Two jobs were ever created and one completed, so the
claimed formula gives 50, but `getDashboardStats` divides by the jobs still
in the store and reports 100. -/
theorem successRate_everCreated_counterexample :
    ReachableFrom emptyStore c2s4 ∧
    ¬ (getDashboardStats c2s4 200).successRate = specSuccessRateEver c2s4 := by
  constructor
  · exact ReachableFrom.step (ReachableFrom.step (ReachableFrom.step
      (ReachableFrom.step ReachableFrom.refl
        (Step.postJob emptyStore (insCaptcha (1 / 100)) 100))
      (Step.postJob c2s1 (insCaptcha (1 / 100)) 101))
      (Step.processJob c2s2 0 true oracleOk 102))
      (Step.deleteJob c2s3 2 103)
  · have hcode : (getDashboardStats c2s4 200).successRate = 100 := by
      norm_num +decide [getDashboardStats, getJobs, c2s4, c2s3, c2s2, c2s1,
        deleteJobRoute, processJobRoute, postJobRoute, createJob,
        createActivityLog, createTransaction, updateUserBalance,
        updateJobFields, deleteJob, getJob, emptyStore, insCaptcha, oracleOk,
        selectExtOp, truthy, List.filter_cons, List.insertionSort,
        List.orderedInsert]
    have hspec : specSuccessRateEver c2s4 = 50 := by
      norm_num +decide [specSuccessRateEver, completedJobCount, c2s4, c2s3,
        c2s2, c2s1, deleteJobRoute, processJobRoute, postJobRoute, createJob,
        createActivityLog, createTransaction, updateUserBalance,
        updateJobFields, deleteJob, getJob, emptyStore, insCaptcha, oracleOk,
        selectExtOp, truthy, List.filter_cons]
    rw [hcode, hspec]
    norm_num

/-- C2 (amended): `getDashboardStats` returns a success rate equal to
(completed jobs in the store) / (jobs in the store) × 100 — deleted jobs are
no longer counted — and equal to 0 when the store holds no jobs. -/
theorem successRate_eq_specSuccessRate (s : MemStorage) (now : Nat) :
    (getDashboardStats s now).successRate = specSuccessRate s ∧
    (s.jobs = [] → (getDashboardStats s now).successRate = 0) := by
  refine ⟨stats_successRate_eq s now, fun h => ?_⟩
  rw [stats_successRate_eq s now, specSuccessRate]
  simp [totalJobCount, h]

/-- Witness for C2's amended theorem, at the empty store. -/
theorem successRate_eq_specSuccessRate_witness :
    (getDashboardStats emptyStore 0).successRate =
      specSuccessRate emptyStore ∧
    (getDashboardStats emptyStore 0).successRate = 0 :=
  ⟨(successRate_eq_specSuccessRate emptyStore 0).1,
   (successRate_eq_specSuccessRate emptyStore 0).2 rfl⟩

/-! ### Claim C3 -/

/-- C3 counterexample: complete a job, then process it again with the
external call throwing.  The second run marks the job `failed` but leaves
the old `completedAt` in place, so the reachable state `c3s3` has a job
with a non-null `completedAt` and status `failed`. -/
theorem completedAt_iff_counterexample :
    ReachableFrom emptyStore c3s3 ∧ jobInvariant c3s3 = false := by
  constructor
  · exact ReachableFrom.step (ReachableFrom.step (ReachableFrom.step
      ReachableFrom.refl (Step.postJob emptyStore (insCaptcha (1 / 100)) 0))
      (Step.processJob c3s1 0 true oracleOk 5))
      (Step.processJob c3s2 0 true oracleFail 6)
  · decide

/-- C3 (amended): provided processing is never requested for a job that is
already `completed` (a guard the source does not enforce), every state
reachable through the public operations from a state satisfying the
invariant — in particular an empty store — satisfies: a job's `completedAt`
is non-null iff its status is `completed`. -/
theorem completedAt_iff_completed_guarded (init s : MemStorage)
    (hinit : jobInvariant init = true) (hre : GuardedReachableFrom init s) :
    jobInvariant s = true := by
  induction hre with
  | refl => exact hinit
  | step hr hstep ih => exact gstep_jobInvariant ih hstep

/-- Witness for C3's amended theorem: a guarded create-then-process run. -/
theorem completedAt_iff_completed_guarded_witness :
    jobInvariant emptyStore = true ∧ jobInvariant c3s2 = true := by
  have h1 : jobInvariant emptyStore = true := by decide
  refine ⟨h1, completedAt_iff_completed_guarded emptyStore c3s2 h1 ?_⟩
  refine GuardedReachableFrom.step (GuardedReachableFrom.step
    GuardedReachableFrom.refl
    (GuardedStep.postJob emptyStore (insCaptcha (1 / 100)) 0))
    (GuardedStep.processJob c3s1 0 true oracleOk 5 ?_)
  decide

/-! ### Claim C4 -/

/-- C4 counterexample: the job schema accepts a negative decimal reward, and
`updateUserBalance` only adds positive amounts to `totalEarnings`.
Successfully processing a job created with reward `-1` returns HTTP 200 and
adds `-1` to the balance, but leaves `totalEarnings` unchanged (`0`), not
increased by the reward amount. -/
theorem processJob_negative_reward_counterexample :
    ReachableFrom emptyStore c4s1 ∧
    getJob c4s1 0 = some
      { id := 0, platformId := none, externalId := none, type := "captcha",
        subType := none, status := "queued", reward := -1,
        data := some { imageUrl := some "https://example.com/c.png",
                       text := none, format := none },
        result := none, errorMessage := none, retryCount := 0,
        createdAt := 0, completedAt := none } ∧
    (processJobRoute c4s1 0 true oracleOk 7).http = 200 ∧
    (processJobRoute c4s1 0 true oracleOk 7).state.balance =
      c4s1.balance + (-1 : ℚ) ∧
    ¬ (processJobRoute c4s1 0 true oracleOk 7).state.totalEarnings =
        c4s1.totalEarnings + (-1 : ℚ) := by
  refine ⟨ReachableFrom.step ReachableFrom.refl
    (Step.postJob emptyStore (insCaptcha (-1)) 0), rfl, rfl, ?_, ?_⟩
  · norm_num +decide [processJobRoute, c4s1, postJobRoute, createJob,
      createActivityLog, createTransaction, updateUserBalance,
      updateJobFields, getJob, emptyStore, insCaptcha, oracleOk, selectExtOp,
      truthy]
  · have h1 : (processJobRoute c4s1 0 true oracleOk 7).state.totalEarnings
        = 0 := by
      norm_num +decide [processJobRoute, c4s1, postJobRoute, createJob,
        createActivityLog, createTransaction, updateUserBalance,
        updateJobFields, getJob, emptyStore, insCaptcha, oracleOk,
        selectExtOp, truthy]
    have h2 : c4s1.totalEarnings = 0 := rfl
    rw [h1, h2]
    norm_num

/-- C4 (amended): when processing succeeds (the external call returns), the
job is stored with status `completed`, the returned text as `result` and
`completedAt = now`; a pending earning transaction for the job's reward is
appended; the balance increases by the reward; `totalEarnings` increases by
the reward only when the reward is positive (it is unchanged otherwise); and
a success activity log is appended. -/
theorem processJob_success_effects (s : MemStorage) (id : Nat) (job : Job)
    (ext : ExtOp → Except String String) (now : Nat) (op : ExtOp)
    (txt : String) (hj : getJob s id = some job)
    (hsel : selectExtOp job.type job.data = Except.ok op)
    (hext : ext op = Except.ok txt) :
    (processJobRoute s id true ext now).http = 200 ∧
    getJob (processJobRoute s id true ext now).state id =
      some { job with status := "completed", result := some txt,
                      completedAt := some now } ∧
    (processJobRoute s id true ext now).state.transactions =
      s.transactions ++
        [{ id := s.nextId, jobId := some job.id, type := "earning",
           amount := job.reward, status := "pending", paymentMethod := none,
           paymentAddress := none, transactionHash := none, createdAt := now,
           completedAt := none }] ∧
    (processJobRoute s id true ext now).state.balance =
      s.balance + job.reward ∧
    (processJobRoute s id true ext now).state.totalEarnings =
      s.totalEarnings + (if job.reward > 0 then job.reward else 0) ∧
    (processJobRoute s id true ext now).state.activityLogs =
      s.activityLogs ++
        [{ id := s.nextId + 1, jobId := some job.id,
           action := if job.type == "captcha" then "CAPTCHA solved"
                     else "Typing job completed",
           details := some ("Earned $" ++ toString job.reward),
           status := "success", createdAt := now }] := by
  unfold processJobRoute
  simp only [hj, hsel, hext]
  refine ⟨rfl, ?_, ?_, ?_, rfl, ?_⟩
  · show getJob (updateJobFields (updateJobFields s id
        (fun j => { j with status := "processing" })) id
        (fun j => { j with status := "completed", result := some txt,
                           completedAt := some now })) id =
      some { job with status := "completed", result := some txt,
                      completedAt := some now }
    rw [getJob_updateJobFields (updateJobFields s id
        (fun j => { j with status := "processing" })) id
        (fun j => { j with status := "completed", result := some txt,
                           completedAt := some now }) (fun j => rfl),
      getJob_updateJobFields s id
        (fun j => { j with status := "processing" }) (fun j => rfl), hj]
    rfl
  · rfl
  · show (if ("earning" == "withdrawal") = true then
        (updateJobFields (updateJobFields s id
          (fun j => { j with status := "processing" })) id
          (fun j => { j with status := "completed", result := some txt,
                             completedAt := some now })).balance - job.reward
      else (updateJobFields (updateJobFields s id
          (fun j => { j with status := "processing" })) id
          (fun j => { j with status := "completed", result := some txt,
                             completedAt := some now })).balance) + job.reward
      = s.balance + job.reward
    rw [if_neg (show ¬ (("earning" == "withdrawal") = true) by decide)]
    rfl
  · rfl

/-- Witness for C4's amended theorem: the concrete successful run stored in
`c3s2`. -/
theorem processJob_success_effects_witness :
    getJob c3s1 0 = some
      { id := 0, platformId := none, externalId := none, type := "captcha",
        subType := none, status := "queued", reward := 1 / 100,
        data := some { imageUrl := some "https://example.com/c.png",
                       text := none, format := none },
        result := none, errorMessage := none, retryCount := 0,
        createdAt := 0, completedAt := none } ∧
    (processJobRoute c3s1 0 true oracleOk 5).http = 200 ∧
    (processJobRoute c3s1 0 true oracleOk 5).state.balance =
      c3s1.balance + (1 / 100 : ℚ) := by
  have hj : getJob c3s1 0 = some
      { id := 0, platformId := none, externalId := none, type := "captcha",
        subType := none, status := "queued", reward := 1 / 100,
        data := some { imageUrl := some "https://example.com/c.png",
                       text := none, format := none },
        result := none, errorMessage := none, retryCount := 0,
        createdAt := 0, completedAt := none } := rfl
  have h := processJob_success_effects c3s1 0 _ oracleOk 5
    ExtOp.solveCaptchaImage "ok" hj rfl rfl
  exact ⟨hj, h.1, h.2.2.2.1⟩

/-! ### Claim C5 -/

/-- C5: for a schema-valid withdrawal request, an amount exceeding the
dashboard balance is rejected with HTTP 400 leaving the store untouched (no
transaction, balance unchanged); an amount within the balance yields HTTP
201, a pending withdrawal transaction, an immediate balance decrement and an
info activity log. -/
theorem postWithdrawal_validation (s : MemStorage) (req : WithdrawalRequest)
    (now : Nat) (hv : parseWithdrawal req = true) :
    (req.amount > s.balance →
      (postWithdrawalRoute s req now).http = 400 ∧
      (postWithdrawalRoute s req now).state = s) ∧
    (req.amount ≤ s.balance →
      (postWithdrawalRoute s req now).http = 201 ∧
      (postWithdrawalRoute s req now).state.balance =
        s.balance - req.amount ∧
      (postWithdrawalRoute s req now).state.transactions =
        s.transactions ++
          [{ id := s.nextId, jobId := none, type := "withdrawal",
             amount := req.amount, status := "pending",
             paymentMethod := some req.paymentMethod,
             paymentAddress := some req.paymentAddress,
             transactionHash := none, createdAt := now,
             completedAt := none }] ∧
      (postWithdrawalRoute s req now).state.activityLogs =
        s.activityLogs ++
          [{ id := s.nextId + 1, jobId := none,
             action := "Withdrawal requested",
             details := some ("$" ++ toString req.amount ++ " via " ++
               req.paymentMethod),
             status := "info", createdAt := now }]) := by
  constructor
  · intro hgt
    unfold postWithdrawalRoute
    rw [if_pos hv, if_pos (show req.amount > (getDashboardStats s now).balance
      from hgt)]
    exact ⟨rfl, rfl⟩
  · intro hle
    unfold postWithdrawalRoute
    rw [if_pos hv, if_neg (show ¬ req.amount > (getDashboardStats s now).balance
      from not_lt.mpr hle)]
    refine ⟨rfl, ?_, rfl, rfl⟩
    norm_num [createActivityLog, createTransaction]

/-- Witness for C5: the store `c3s2` holds balance `0.01`; a `$5` request is
rejected without effect. -/
theorem postWithdrawal_validation_witness :
    parseWithdrawal reqBig = true ∧
    (postWithdrawalRoute c3s2 reqBig 50).http = 400 ∧
    (postWithdrawalRoute c3s2 reqBig 50).state = c3s2 := by
  have hv : parseWithdrawal reqBig = true := by decide
  have h := (postWithdrawal_validation c3s2 reqBig 50 hv).1 (by
    norm_num +decide [reqBig, c3s2, c3s1, processJobRoute, postJobRoute,
      createJob, createActivityLog, createTransaction, updateUserBalance,
      updateJobFields, getJob, emptyStore, insCaptcha, oracleOk, selectExtOp,
      truthy])
  exact ⟨hv, h.1, h.2⟩

/-! ### Claim C6 -/

/-- C6: when a stored job's type/data combination is not one of the four
valid ones, processing (with the AI module available) never invokes the
external oracle — the result is the same for every oracle — and the job is
stored as `failed` with a non-empty descriptive error message and an
incremented retry counter, under HTTP 500. -/
theorem processJob_invalid_combo_fails (s : MemStorage) (id : Nat)
    (job : Job) (ext : ExtOp → Except String String) (now : Nat)
    (hj : getJob s id = some job)
    (hvc : validCombo job.type job.data = false) :
    (processJobRoute s id true ext now).externalCalled = false ∧
    (processJobRoute s id true ext now).http = 500 ∧
    (∃ msg, msg ≠ "" ∧
      getJob (processJobRoute s id true ext now).state id =
        some { job with status := "failed", errorMessage := some msg,
                        retryCount := job.retryCount + 1 }) ∧
    (∀ ext', processJobRoute s id true ext' now =
      processJobRoute s id true ext now) := by
  obtain ⟨msg, hsel, hmsg⟩ := selectExtOp_error_of_invalid job.type job.data hvc
  unfold processJobRoute
  simp only [hj, hsel]
  refine ⟨rfl, rfl, ⟨msg, hmsg, ?_⟩, fun ext' => by trivial⟩
  show getJob (updateJobFields (updateJobFields s id
      (fun j => { j with status := "processing" })) id
      (fun j => { j with status := "failed", errorMessage := some msg,
                         retryCount := job.retryCount + 1 })) id =
    some { job with status := "failed", errorMessage := some msg,
                    retryCount := job.retryCount + 1 }
  rw [getJob_updateJobFields (updateJobFields s id
      (fun j => { j with status := "processing" })) id
      (fun j => { j with status := "failed", errorMessage := some msg,
                         retryCount := job.retryCount + 1 }) (fun j => rfl),
    getJob_updateJobFields s id
      (fun j => { j with status := "processing" }) (fun j => rfl), hj]
  rfl

/-- Witness for C6: the typing job with text but no format, created in
`c6s1`. -/
theorem processJob_invalid_combo_fails_witness :
    validCombo insTypingBad.type insTypingBad.data = false ∧
    (processJobRoute c6s1 0 true oracleOk 9).externalCalled = false ∧
    (processJobRoute c6s1 0 true oracleOk 9).http = 500 := by
  have hj : getJob c6s1 0 = some
      { id := 0, platformId := none, externalId := none, type := "typing",
        subType := none, status := "queued", reward := 1 / 100,
        data := some { imageUrl := none, text := some "t", format := none },
        result := none, errorMessage := none, retryCount := 0,
        createdAt := 0, completedAt := none } := rfl
  have h := processJob_invalid_combo_fails c6s1 0
    { id := 0, platformId := none, externalId := none, type := "typing",
      subType := none, status := "queued", reward := 1 / 100,
      data := some { imageUrl := none, text := some "t", format := none },
      result := none, errorMessage := none, retryCount := 0,
      createdAt := 0, completedAt := none } oracleOk 9 hj (by decide)
  exact ⟨by decide, h.1, h.2.1⟩

/-! ### Claim C7 -/

/-- C7: the dashboard's `pendingWithdrawals` equals the sum of the amounts
of transactions with type `withdrawal` and status `pending`, and creating a
new withdrawal transaction of amount `a` (always created `pending`)
increases that sum by exactly `a`. -/
theorem pendingWithdrawals_spec :
    (∀ (s : MemStorage) (now : Nat),
      (getDashboardStats s now).pendingWithdrawals =
        specPendingWithdrawals s) ∧
    (∀ (s : MemStorage) (ins : InsertTransaction) (now : Nat),
      ins.type = "withdrawal" →
        specPendingWithdrawals (createTransaction s ins now).1 =
          specPendingWithdrawals s + ins.amount) := by
  refine ⟨stats_pendingWithdrawals_eq, fun s ins now hty => ?_⟩
  unfold specPendingWithdrawals createTransaction
  simp [List.filter_append, hty]

/-- Witness for C7: the empty store and a concrete `$5` withdrawal. -/
theorem pendingWithdrawals_spec_witness :
    (getDashboardStats emptyStore 0).pendingWithdrawals =
      specPendingWithdrawals emptyStore ∧
    specPendingWithdrawals (createTransaction emptyStore insWithdrawTx 0).1 =
      specPendingWithdrawals emptyStore + insWithdrawTx.amount :=
  ⟨pendingWithdrawals_spec.1 emptyStore 0,
   pendingWithdrawals_spec.2 emptyStore insWithdrawTx 0 rfl⟩

/-! ### Claim C8 -/

/-- C8: the success rate returned by `getDashboardStats` always lies in
[0,100], and equals 0 when the store contains no jobs (the division is
guarded by the job count). -/
theorem successRate_bounds (s : MemStorage) (now : Nat) :
    0 ≤ (getDashboardStats s now).successRate ∧
    (getDashboardStats s now).successRate ≤ 100 ∧
    (s.jobs = [] → (getDashboardStats s now).successRate = 0) := by
  rw [stats_successRate_eq s now, specSuccessRate]
  by_cases ht : totalJobCount s > 0
  · rw [if_pos ht]
    have hc : (completedJobCount s : ℚ) ≤ (totalJobCount s : ℚ) := by
      exact_mod_cast List.length_filter_le _ s.jobs
    have ht' : (0 : ℚ) < (totalJobCount s : ℚ) := by exact_mod_cast ht
    have hd1 : (completedJobCount s : ℚ) / (totalJobCount s : ℚ) ≤ 1 :=
      (div_le_one ht').mpr hc
    have hd0 : (0 : ℚ) ≤ (completedJobCount s : ℚ) / (totalJobCount s : ℚ) :=
      div_nonneg (by positivity) (le_of_lt ht')
    refine ⟨by positivity, ?_, fun hjobs => ?_⟩
    · have := mul_le_mul_of_nonneg_right hd1 (by norm_num : (0 : ℚ) ≤ 100)
      simpa using this
    · exfalso
      rw [totalJobCount, hjobs] at ht
      exact absurd ht (by simp)
  · rw [if_neg ht]
    exact ⟨le_refl 0, by norm_num, fun _ => rfl⟩

/-- Witness for C8 at the empty store. -/
theorem successRate_bounds_witness :
    0 ≤ (getDashboardStats emptyStore 3).successRate ∧
    (getDashboardStats emptyStore 3).successRate ≤ 100 ∧
    (getDashboardStats emptyStore 3).successRate = 0 :=
  ⟨(successRate_bounds emptyStore 3).1, (successRate_bounds emptyStore 3).2.1,
   (successRate_bounds emptyStore 3).2.2 rfl⟩

/-! ### Claim C9 -/

/-- C9: a schema-valid withdrawal request for a positive amount exactly
equal to the current balance passes the strict greater-than check: HTTP 201,
a pending withdrawal transaction is appended, and the resulting balance is
exactly zero. -/
theorem withdrawal_exact_balance_accepted (s : MemStorage)
    (req : WithdrawalRequest) (now : Nat) (hv : parseWithdrawal req = true)
    (_hpos : 0 < req.amount) (heq : req.amount = s.balance) :
    (postWithdrawalRoute s req now).http = 201 ∧
    (postWithdrawalRoute s req now).state.balance = 0 ∧
    (postWithdrawalRoute s req now).state.transactions =
      s.transactions ++
        [{ id := s.nextId, jobId := none, type := "withdrawal",
           amount := req.amount, status := "pending",
           paymentMethod := some req.paymentMethod,
           paymentAddress := some req.paymentAddress,
           transactionHash := none, createdAt := now,
           completedAt := none }] := by
  unfold postWithdrawalRoute
  rw [if_pos hv, if_neg (show ¬ req.amount > (getDashboardStats s now).balance
    from not_lt.mpr (le_of_eq heq))]
  refine ⟨rfl, ?_, rfl⟩
  show (if ("withdrawal" == "withdrawal") = true then s.balance - req.amount
    else s.balance) = 0
  rw [if_pos (by decide), heq, sub_self]

/-- Witness for C9: `c3s2` has balance `0.01`; withdrawing exactly `0.01`
is accepted and zeroes the balance. -/
theorem withdrawal_exact_balance_accepted_witness :
    parseWithdrawal reqExact = true ∧
    (postWithdrawalRoute c3s2 reqExact 50).http = 201 ∧
    (postWithdrawalRoute c3s2 reqExact 50).state.balance = 0 := by
  have hv : parseWithdrawal reqExact = true := by
    norm_num +decide [parseWithdrawal, reqExact]
  have heq : reqExact.amount = c3s2.balance := by
    norm_num +decide [reqExact, c3s2, c3s1, processJobRoute, postJobRoute,
      createJob, createActivityLog, createTransaction, updateUserBalance,
      updateJobFields, getJob, emptyStore, insCaptcha, oracleOk, selectExtOp,
      truthy]
  have h := withdrawal_exact_balance_accepted c3s2 reqExact 50 hv
    (by norm_num [reqExact]) heq
  exact ⟨hv, h.1, h.2.1⟩

/-! ### Claim C10 -/

/-- C10: every transaction created through `createTransaction` — whatever
its type — starts with status `pending`, a null `transactionHash` and a null
`completedAt`; and no route of the public API ever mutates a stored
transaction, so created transactions (earning ones included) keep those
fields for the life of the process. -/
theorem transactions_created_pending_immutable :
    (∀ (s : MemStorage) (ins : InsertTransaction) (now : Nat),
      (createTransaction s ins now).2.status = "pending" ∧
      (createTransaction s ins now).2.transactionHash = none ∧
      (createTransaction s ins now).2.completedAt = none) ∧
    (∀ (s s' : MemStorage), Step s s' →
      ∀ t ∈ s.transactions, t ∈ s'.transactions) :=
  ⟨fun _ _ _ => ⟨rfl, rfl, rfl⟩, fun _ _ hs => step_transactions_mono hs⟩

/-- Witness for C10: the earning transaction of `c3s2` is created pending
and survives a further job-creation step unchanged. -/
theorem transactions_created_pending_immutable_witness :
    (createTransaction emptyStore insEarnTx 0).2.status = "pending" ∧
    c3tx ∈ c3s2.transactions ∧
    c3tx ∈ (postJobRoute c3s2 (insCaptcha 1) 50).state.transactions := by
  have hmem : c3tx ∈ c3s2.transactions := by
    norm_num +decide [c3tx, c3s2, c3s1, processJobRoute, postJobRoute,
      createJob, createActivityLog, createTransaction, updateUserBalance,
      updateJobFields, getJob, emptyStore, insCaptcha, oracleOk, selectExtOp,
      truthy]
  exact ⟨(transactions_created_pending_immutable.1 emptyStore insEarnTx 0).1,
    hmem,
    transactions_created_pending_immutable.2 c3s2 _
      (Step.postJob c3s2 (insCaptcha 1) 50) c3tx hmem⟩

end AutoSolver
